import Mathlib

/-!
Shallow embedding of microsoft/hcnproxyctrl (proxy/hcnproxyctl.go and
cri/cri.go).  The remote Host Networking Service (HNS) and the CRI runtime
are modelled as an oracle `World` fixing the outcome of every remote call;
each library operation returns its Go result together with the list of
remote calls it issued.
-/

set_option autoImplicit false

namespace HcnProxyCtrl

/-- A JSON value, as produced by Go's encoding/json.  `json.RawMessage`
payloads that the code receives from HNS were parsed out of an HNS JSON
response, hence are always syntactically valid JSON and are modelled
directly as `Json` values.  `nullv` stands for JSON null / Go `nil`. -/
inductive Json where
  | str (s : String)
  | num (n : Nat)
  | obj (fields : List (String × Json))
  | nullv

/-- hcn.FiveTuple (hcsshim): the filter tuple inside an L4 proxy policy
setting.  Priority is a Go uint16; no arithmetic is performed on it. -/
structure FiveTuple where
  LocalAddresses : String := ""
  RemoteAddresses : String := ""
  LocalPorts : String := ""
  RemotePorts : String := ""
  Protocols : String := ""
  Priority : Nat := 0
deriving DecidableEq, Repr

/-- hcn.L4WfpProxyPolicySetting (hcsshim): the settings schema used by
AddPolicy / hcnPolicyToAPIPolicy.  Default values are the Go zero values. -/
structure L4WfpProxyPolicySetting where
  Port : String := ""
  UserSID : String := ""
  FilterTuple : FiveTuple := {}
deriving DecidableEq, Repr

/-- hcn.EndpointPolicyType as far as this code distinguishes it: the
L4WFPPROXY interception type versus any other policy type. -/
inductive PolicyKind where
  | L4WFPPROXY
  | other (name : String)
deriving DecidableEq, Repr

/-- hcn.EndpointPolicy: a policy type tag together with a raw settings
blob (field `Type` in Go; `typ` here because `Type` is a Lean keyword). -/
structure EndpointPolicy where
  typ : PolicyKind
  Settings : Json

/-- hcn.PolicyEndpointRequest. -/
structure PolicyEndpointRequest where
  Policies : List EndpointPolicy

/-- hcn.EndpointResourceType (only Policy is used). -/
inductive EndpointResourceType where
  | Policy
deriving DecidableEq, Repr

/-- hcn.RequestType (only Add and Remove are used). -/
inductive HcnRequestType where
  | Add
  | Remove
deriving DecidableEq, Repr

/-- hcn.ModifyEndpointSettingRequest. -/
structure ModifyEndpointSettingRequest where
  ResourceType : EndpointResourceType
  RequestType : HcnRequestType
  Settings : Json

/-- hcn.HostComputeEndpoint, restricted to the fields this code reads. -/
structure HostComputeEndpoint where
  Id : String := ""
  Policies : List EndpointPolicy := []

/-- The Policy struct of package hcnproxyctrl (hcnproxyctl.go lines 29-56).
Defaults are the Go zero values. -/
structure Policy where
  ProxyPort : String := ""
  UserSID : String := ""
  LocalAddresses : String := ""
  RemoteAddresses : String := ""
  LocalPorts : String := ""
  RemotePorts : String := ""
  Priority : Nat := 0
  Protocol : String := ""
deriving DecidableEq, Repr

/-- cri.ContainerInfo. -/
structure ContainerInfo where
  ContainerId : String
  NamespaceId : String
deriving DecidableEq, Repr

/-- One container as seen through the CRI runtime: its id and the outcome
of the per-container ContainerStatus RPC.  On success the payload is the
parsed `info` JSON blob (cri.go line 79-81; the ignored unmarshal error on
invalid text leaves `infoMap` nil, modelled as `Json.nullv`). -/
structure CriContainer where
  Id : String
  status : Except String Json

/-- The outcome of a Go call that can also terminate the program with a
runtime panic (type-assertion failure or an explicit panic call). -/
inductive GoResult (α : Type) where
  | ok (val : α)
  | err (msg : String)
  | panicked (msg : String)
deriving DecidableEq, Repr

/-- Is this result a Go runtime panic? -/
def GoResult.isPanicked {α : Type} : GoResult α → Bool
  | .panicked _ => true
  | _ => false

/-- One remote call issued against the HNS control plane or the CRI
runtime, recorded in the order the Go code issues them. -/
inductive RemoteCall where
  | getEndpointByID (id : String)
  | applyPolicyAdd (id : String) (req : PolicyEndpointRequest)
  | modifyEndpointSettings (id : String) (req : ModifyEndpointSettingRequest)
  | getNamespaceEndpointIds (ns : String)
  | criListContainers

/-- Does the call mutate endpoint policy state via a Remove request? -/
def RemoteCall.isRemoveMutation : RemoteCall → Bool
  | .modifyEndpointSettings _ req => req.RequestType = HcnRequestType.Remove
  | _ => false

/-- Is the call directed at the HNS control plane (as opposed to CRI)? -/
def RemoteCall.isHcnCall : RemoteCall → Bool
  | .criListContainers => false
  | _ => true

/-- The oracle fixing the outcome of every remote call: the HNS endpoint
store, the results of the two mutations, the namespace-to-endpoints map,
and the CRI container listing (each container bundling its status RPC
outcome).  Quantifying over `World` quantifies over every behaviour of the
remote services, success and failure alike. -/
structure World where
  getEndpointByID : String → Except String HostComputeEndpoint
  applyPolicyResult : String → PolicyEndpointRequest → Option String
  modifyResult : String → ModifyEndpointSettingRequest → Option String
  getNamespaceEndpointIds : String → Except String (List String)
  listContainersRPC : Except String (List CriContainer)

/-! ## encoding/json model for the L4WfpProxyPolicySetting schema

`json.Marshal` of the setting struct (string and uint16 fields only)
always succeeds; `json.Unmarshal` into the struct is forgiving: missing
keys leave the Go zero value, a value of the wrong type leaves the zero
value and records a type error, and the decoder continues with the other
fields, returning the recorded error at the end.  The code under
verification discards that error, so the decoder here returns the struct
together with a flag telling whether an error was recorded. -/

/-- First binding of a key in a JSON object's field list. -/
def lookupField : List (String × Json) → String → Option Json
  | [], _ => none
  | (k, v) :: rest, key => if k = key then some v else lookupField rest key

/-- Decode a string-typed field: missing key gives the zero value "",
a non-string value gives "" plus a recorded type error. -/
def getStrField (fields : List (String × Json)) (key : String) : String × Bool :=
  match lookupField fields key with
  | none => ("", false)
  | some (.str s) => (s, false)
  | some _ => ("", true)

/-- Decode an unsigned-integer-typed field the same way. -/
def getNatField (fields : List (String × Json)) (key : String) : Nat × Bool :=
  match lookupField fields key with
  | none => (0, false)
  | some (.num n) => (n, false)
  | some _ => (0, true)

/-- json.Marshal of hcn.FiveTuple. -/
def encodeFiveTuple (t : FiveTuple) : Json :=
  .obj [("LocalAddresses", .str t.LocalAddresses),
        ("RemoteAddresses", .str t.RemoteAddresses),
        ("LocalPorts", .str t.LocalPorts),
        ("RemotePorts", .str t.RemotePorts),
        ("Protocols", .str t.Protocols),
        ("Priority", .num t.Priority)]

/-- json.Marshal of hcn.L4WfpProxyPolicySetting. -/
def encodeL4Setting (s : L4WfpProxyPolicySetting) : Json :=
  .obj [("Port", .str s.Port),
        ("UserSID", .str s.UserSID),
        ("FilterTuple", encodeFiveTuple s.FilterTuple)]

/-- The Go zero value of hcn.FiveTuple. -/
def zeroFiveTuple : FiveTuple := {}

/-- The Go zero value of hcn.L4WfpProxyPolicySetting. -/
def zeroL4Setting : L4WfpProxyPolicySetting := {}

/-- The Go zero value of the Policy struct. -/
def zeroPolicy : Policy := {}

/-- json.Unmarshal into hcn.FiveTuple (value, error-recorded flag). -/
def decodeFiveTuple (j : Json) : FiveTuple × Bool :=
  match j with
  | .obj fields =>
    let la := getStrField fields "LocalAddresses"
    let ra := getStrField fields "RemoteAddresses"
    let lp := getStrField fields "LocalPorts"
    let rp := getStrField fields "RemotePorts"
    let pr := getStrField fields "Protocols"
    let pri := getNatField fields "Priority"
    ({ LocalAddresses := la.1, RemoteAddresses := ra.1, LocalPorts := lp.1,
       RemotePorts := rp.1, Protocols := pr.1, Priority := pri.1 },
     la.2 || ra.2 || lp.2 || rp.2 || pr.2 || pri.2)
  | _ => (zeroFiveTuple, true)

/-- json.Unmarshal into hcn.L4WfpProxyPolicySetting, as performed on
Settings blobs (value, error-recorded flag).  A blob that is not an
object at all leaves the whole struct at its zero value. -/
def unmarshalL4Setting (j : Json) : L4WfpProxyPolicySetting × Bool :=
  match j with
  | .obj fields =>
    let port := getStrField fields "Port"
    let sid := getStrField fields "UserSID"
    let ft :=
      match lookupField fields "FilterTuple" with
      | none => (zeroFiveTuple, false)
      | some v => decodeFiveTuple v
    ({ Port := port.1, UserSID := sid.1, FilterTuple := ft.1 },
     port.2 || sid.2 || ft.2)
  | _ => (zeroL4Setting, true)

/-- json.Marshal of the PolicyType tag. -/
def encodePolicyKind : PolicyKind → Json
  | .L4WFPPROXY => .str "L4WFPPROXY"
  | .other name => .str name

/-- json.Marshal of hcn.EndpointPolicy.  The Settings RawMessage is valid
JSON (it was parsed out of an HNS response or produced by Marshal), so
marshaling the envelope always succeeds. -/
def encodeEndpointPolicy (p : EndpointPolicy) : Json :=
  .obj [("Type", encodePolicyKind p.typ), ("Settings", p.Settings)]

/-- json.Marshal of hcn.PolicyEndpointRequest (hcnproxyctl.go line 134). -/
def marshalPolicyRequest (req : PolicyEndpointRequest) : Json :=
  .obj [("Policies", .obj (req.Policies.map (fun p => ("", encodeEndpointPolicy p))))]

/-! ## strconv.Atoi model

`strconv.Atoi(s)` is `ParseInt(s, 10, 0)`: an optional sign followed by
one or more decimal digits.  On a syntax error it returns 0 (with an
error the code discards); on range overflow it returns the value clamped
to the 64-bit int range (again with a discarded error). -/

/-- Split an optional leading sign off a character list. -/
def stripSign (cs : List Char) : Int × List Char :=
  match cs with
  | [] => (1, [])
  | c :: rest =>
    if c = '+' then (1, rest)
    else if c = '-' then (-1, rest)
    else (1, c :: rest)

/-- Value of a digit string; `none` on the empty string or a non-digit. -/
def parseDigits (cs : List Char) : Option Nat :=
  if cs.isEmpty then none
  else if cs.all Char.isDigit then
    some (cs.foldl (fun acc c => acc * 10 + (c.toNat - 48)) 0)
  else none

/-- Largest 64-bit signed integer (2^63 - 1). -/
def int64Max : Int := 9223372036854775807

/-- Smallest 64-bit signed integer (-2^63). -/
def int64Min : Int := -9223372036854775808

/-- Go's strconv.Atoi with the error dropped: 0 on a syntax error, the
clamped value on overflow, the parsed value otherwise. -/
def goAtoi (s : String) : Int :=
  match parseDigits (stripSign s.data).2 with
  | none => 0
  | some n =>
    let v : Int := (stripSign s.data).1 * n
    if v > int64Max then int64Max
    else if v < int64Min then int64Min
    else v

/-- A numeric string in the sense of strconv.Atoi's accepted syntax: an
optional sign followed by at least one decimal digit. -/
def isNumericString (s : String) : Bool :=
  !(stripSign s.data).2.isEmpty && (stripSign s.data).2.all Char.isDigit

/-- The mathematical value a numeric string denotes (0 on a non-numeric
string), without any range clamping. -/
def numericValue (s : String) : Int :=
  match parseDigits (stripSign s.data).2 with
  | none => 0
  | some n => (stripSign s.data).1 * n

/-! ## The library operations (proxy/hcnproxyctl.go) -/

/-- validatePolicy (hcnproxyctl.go lines 226-235): `none` iff the policy
is valid; otherwise the error message returned. -/
def validatePolicy (policy : Policy) : Option String :=
  if policy.ProxyPort.length = 0 then
    some "policy missing proxy port"
  else if goAtoi policy.ProxyPort = 0 then
    some "policy has invalid proxy port value: 0"
  else
    none

/-- The L4WfpProxyPolicySetting AddPolicy builds (lines 70-81), read off
the policy after its Protocol field has been set. -/
def addPolicySetting (policy : Policy) : L4WfpProxyPolicySetting :=
  { Port := policy.ProxyPort,
    UserSID := policy.UserSID,
    FilterTuple :=
      { LocalAddresses := policy.LocalAddresses,
        RemoteAddresses := policy.RemoteAddresses,
        LocalPorts := policy.LocalPorts,
        RemotePorts := policy.RemotePorts,
        Protocols := policy.Protocol,
        Priority := policy.Priority } }

/-- AddPolicy (hcnproxyctl.go lines 62-103).  Returns the Go error
(`none` = success) and the remote calls issued.  json.Marshal of the
setting struct cannot fail, so no marshal-error branch exists. -/
def AddPolicy (w : World) (hnsEndpointID : String) (policy : Policy) :
    Option String × List RemoteCall :=
  match validatePolicy policy with
  | some e => (some e, [])
  | none =>
    let policy := { policy with Protocol := "6" }
    let policySetting := addPolicySetting policy
    let policyJSON := encodeL4Setting policySetting
    let endpointPolicy : EndpointPolicy := { typ := .L4WFPPROXY, Settings := policyJSON }
    let request : PolicyEndpointRequest := { Policies := [endpointPolicy] }
    match w.getEndpointByID hnsEndpointID with
    | .error e => (some e, [.getEndpointByID hnsEndpointID])
    | .ok _endpoint =>
      (w.applyPolicyResult hnsEndpointID request,
       [.getEndpointByID hnsEndpointID, .applyPolicyAdd hnsEndpointID request])

/-- listPolicies (hcnproxyctl.go lines 185-199): fetch the endpoint and
keep only the L4WFPPROXY policies. -/
def listPolicies (w : World) (hnsEndpointID : String) :
    Except String (List EndpointPolicy) × List RemoteCall :=
  match w.getEndpointByID hnsEndpointID with
  | .error e => (.error e, [.getEndpointByID hnsEndpointID])
  | .ok endpoint =>
    (.ok (endpoint.Policies.filter (fun p => decide (p.typ = PolicyKind.L4WFPPROXY))),
     [.getEndpointByID hnsEndpointID])

/-- hcnPolicyToAPIPolicy (hcnproxyctl.go lines 203-222).  `none` models
the Go panic on a non-L4WFPPROXY policy; otherwise the unmarshal error is
discarded and the (possibly zero-valued) setting is copied field by
field. -/
def hcnPolicyToAPIPolicy (hcnPolicy : EndpointPolicy) : Option Policy :=
  if hcnPolicy.typ = PolicyKind.L4WFPPROXY then
    let hcnPolicySetting := (unmarshalL4Setting hcnPolicy.Settings).1
    some { ProxyPort := hcnPolicySetting.Port,
           UserSID := hcnPolicySetting.UserSID,
           LocalAddresses := hcnPolicySetting.FilterTuple.LocalAddresses,
           RemoteAddresses := hcnPolicySetting.FilterTuple.RemoteAddresses,
           LocalPorts := hcnPolicySetting.FilterTuple.LocalPorts,
           RemotePorts := hcnPolicySetting.FilterTuple.RemotePorts,
           Priority := hcnPolicySetting.FilterTuple.Priority,
           Protocol := hcnPolicySetting.FilterTuple.Protocols }
  else
    none

/-- ListPolicies (hcnproxyctl.go lines 107-119): convert every filtered
policy; a panic in the converter aborts the program. -/
def ListPolicies (w : World) (hnsEndpointID : String) :
    GoResult (List Policy) × List RemoteCall :=
  match listPolicies w hnsEndpointID with
  | (.error e, trace) => (.err e, trace)
  | (.ok hcnPolicies, trace) =>
    match hcnPolicies.mapM hcnPolicyToAPIPolicy with
    | none => (.panicked "not an L4 proxy policy", trace)
    | some policies => (.ok policies, trace)

/-- ClearPolicies (hcnproxyctl.go lines 124-146): list the proxy
policies, then remove them all in one ModifyEndpointSettings call,
returning the pre-removal count together with the mutation's outcome. -/
def ClearPolicies (w : World) (hnsEndpointID : String) :
    (Nat × Option String) × List RemoteCall :=
  match listPolicies w hnsEndpointID with
  | (.error e, trace) => ((0, some e), trace)
  | (.ok policies, trace) =>
    let policyReq : PolicyEndpointRequest := { Policies := policies }
    let policyJSON := marshalPolicyRequest policyReq
    let modifyReq : ModifyEndpointSettingRequest :=
      { ResourceType := .Policy, RequestType := .Remove, Settings := policyJSON }
    ((policies.length, w.modifyResult hnsEndpointID modifyReq),
     trace ++ [.modifyEndpointSettings hnsEndpointID modifyReq])

/-! ## cri.ListContainers and GetEndpointFromContainer -/

/-- Look a key up in a JSON value that the Go code asserts to be a map:
`none` when the value is not an object (the type assertion panics) or
when the key is absent (the nil value fails the next assertion). -/
def getObjField (j : Json) (key : String) : Option Json :=
  match j with
  | .obj fields => lookupField fields key
  | _ => none

/-- The nested extraction cri.go lines 83-86 performs on the parsed info
blob: info.runtimeSpec.windows.network.networkNamespace, each step a Go
type assertion.  `none` means the Go program panics. -/
def extractNamespaceId (info : Json) : Option String := do
  let runtimeSpec ← getObjField info "runtimeSpec"
  let windows ← getObjField runtimeSpec "windows"
  let network ← getObjField windows "network"
  let networkNamespace ← getObjField network "networkNamespace"
  match networkNamespace with
  | .str s => some s
  | _ => none

/-- The per-container body of cri.ListContainers' loop, folded over the
containers in order: the first failing status RPC aborts with its error,
a failing type assertion aborts the program. -/
def buildContainerInfos : List CriContainer → GoResult (List ContainerInfo)
  | [] => .ok []
  | c :: rest =>
    match c.status with
    | .error e => .err e
    | .ok info =>
      match extractNamespaceId info with
      | none => .panicked "interface conversion"
      | some ns =>
        match buildContainerInfos rest with
        | .ok infos => .ok ({ ContainerId := c.Id, NamespaceId := ns } :: infos)
        | r => r

/-- cri.ListContainers (cri.go lines 48-96): list the containers, then
fetch and dissect each container's verbose status. -/
def ListContainers (w : World) : GoResult (List ContainerInfo) :=
  match w.listContainersRPC with
  | .error e => .err e
  | .ok criContainers => buildContainerInfos criContainers

/-- The namespace-selection loop of GetEndpointFromContainer (lines
163-167): the last container whose id matches wins. -/
def scanNamespace (containers : List ContainerInfo) (containerID : String) : String :=
  containers.foldl
    (fun acc container =>
      if container.ContainerId = containerID then container.NamespaceId else acc)
    ""

/-- GetEndpointFromContainer (hcnproxyctl.go lines 153-181).  The
runtimeEndpoint argument only selects the CRI socket, whose behaviour the
World already fixes, so it does not enter the computation. -/
def GetEndpointFromContainer (w : World) (containerID : String)
    (_runtimeEndpoint : String) : GoResult String × List RemoteCall :=
  match ListContainers w with
  | .err e => (.err e, [.criListContainers])
  | .panicked m => (.panicked m, [.criListContainers])
  | .ok containers =>
    let namespaceID := scanNamespace containers containerID
    if namespaceID.length = 0 then
      (.err "could not find the container", [.criListContainers])
    else
      match w.getNamespaceEndpointIds namespaceID with
      | .error e =>
        (.err e, [.criListContainers, .getNamespaceEndpointIds namespaceID])
      | .ok endpointIDs =>
        if endpointIDs.length = 0 then
          (.err "could not find an endpoint attached to that container",
           [.criListContainers, .getNamespaceEndpointIds namespaceID])
        else
          (.ok (String.intercalate "," endpointIDs),
           [.criListContainers, .getNamespaceEndpointIds namespaceID])

/-- The Policy record hcnPolicyToAPIPolicy builds on the non-panicking
branch: the unmarshalled setting copied field by field, the unmarshal
error dropped. -/
def convertedPolicy (p : EndpointPolicy) : Policy :=
  { ProxyPort := (unmarshalL4Setting p.Settings).1.Port,
    UserSID := (unmarshalL4Setting p.Settings).1.UserSID,
    LocalAddresses := (unmarshalL4Setting p.Settings).1.FilterTuple.LocalAddresses,
    RemoteAddresses := (unmarshalL4Setting p.Settings).1.FilterTuple.RemoteAddresses,
    LocalPorts := (unmarshalL4Setting p.Settings).1.FilterTuple.LocalPorts,
    RemotePorts := (unmarshalL4Setting p.Settings).1.FilterTuple.RemotePorts,
    Priority := (unmarshalL4Setting p.Settings).1.FilterTuple.Priority,
    Protocol := (unmarshalL4Setting p.Settings).1.FilterTuple.Protocols }

/-! ## A concrete world used by witnesses and counterexamples -/

/-- A fully populated proxy policy setting. -/
def demoSetting : L4WfpProxyPolicySetting :=
  { Port := "8080", UserSID := "S-1-5-18",
    FilterTuple :=
      { LocalAddresses := "10.0.0.1", RemoteAddresses := "10.0.0.2",
        LocalPorts := "80", RemotePorts := "443", Protocols := "6", Priority := 8 } }

/-- A fully populated API Policy record with the TCP protocol value. -/
def demoPolicy : Policy :=
  { ProxyPort := "8080", UserSID := "S-1-5-18",
    LocalAddresses := "10.0.0.1", RemoteAddresses := "10.0.0.2",
    LocalPorts := "80", RemotePorts := "443", Priority := 8, Protocol := "6" }

/-- A well-formed stored interception policy (settings marshalled from
`demoSetting`). -/
def goodProxyPolicy : EndpointPolicy :=
  { typ := .L4WFPPROXY, Settings := encodeL4Setting demoSetting }

/-- A stored policy of a different type, which listPolicies filters out. -/
def aclPolicy : EndpointPolicy :=
  { typ := .other "ACL", Settings := .obj [] }

/-- An interception policy whose settings blob does not match the
L4WfpProxyPolicySetting schema: unmarshalling it records an error. -/
def malformedProxyPolicy : EndpointPolicy :=
  { typ := .L4WFPPROXY, Settings := .str "garbage" }

/-- Endpoint holding two interception policies (one malformed) and one
policy of another type. -/
def epA : HostComputeEndpoint :=
  { Id := "ep-a", Policies := [goodProxyPolicy, aclPolicy, malformedProxyPolicy] }

/-- Endpoint holding no interception policy, only a policy of another
type. -/
def epB : HostComputeEndpoint :=
  { Id := "ep-b", Policies := [aclPolicy] }

/-- The verbose-status info blob carrying the nested namespace id. -/
def infoBlob (ns : String) : Json :=
  .obj [("runtimeSpec",
         .obj [("windows",
                .obj [("network",
                       .obj [("networkNamespace", .str ns)])])])]

/-- Three CRI containers: cont-1 listed twice (ns-0 first, ns-1 last) and
cont-2 whose status carries an empty namespace id. -/
def demoContainers : List CriContainer :=
  [ { Id := "cont-1", status := .ok (infoBlob "ns-0") },
    { Id := "cont-2", status := .ok (infoBlob "") },
    { Id := "cont-1", status := .ok (infoBlob "ns-1") } ]

/-- A concrete world: two endpoints, a failing remove mutation, namespace
ns-1 carrying two endpoints, and the three demo containers. -/
def wDemo : World :=
  { getEndpointByID := fun id =>
      if id = "ep-a" then .ok epA
      else if id = "ep-b" then .ok epB
      else .error "endpoint not found",
    applyPolicyResult := fun _ _ => none,
    modifyResult := fun _ _ => some "hns: remove failed",
    getNamespaceEndpointIds := fun ns =>
      if ns = "ns-1" then .ok ["eid-1", "eid-2"]
      else .error "namespace not found",
    listContainersRPC := .ok demoContainers }

/-! ## Helper lemmas -/

/-- Unmarshalling a marshalled L4WfpProxyPolicySetting recovers it
exactly, with no decode error. -/
theorem unmarshal_encodeL4Setting (s : L4WfpProxyPolicySetting) :
    unmarshalL4Setting (encodeL4Setting s) = (s, false) := rfl

/-- On an L4WFPPROXY policy the converter does not panic and produces the
field-by-field copy of the unmarshalled setting. -/
theorem hcnPolicyToAPIPolicy_l4 (p : EndpointPolicy)
    (h : p.typ = PolicyKind.L4WFPPROXY) :
    hcnPolicyToAPIPolicy p = some (convertedPolicy p) := by
  simp [hcnPolicyToAPIPolicy, h, convertedPolicy]

/-- Every policy kept by listPolicies' filter is of the L4WFPPROXY
type. -/
theorem typ_of_mem_filterProxy (l : List EndpointPolicy) (p : EndpointPolicy)
    (h : p ∈ l.filter (fun q => decide (q.typ = PolicyKind.L4WFPPROXY))) :
    p.typ = PolicyKind.L4WFPPROXY := by
  have := List.of_mem_filter h
  simpa using this

/-- Converting a list of L4WFPPROXY policies never panics: it yields the
pointwise conversion. -/
theorem mapM_hcnPolicyToAPIPolicy (l : List EndpointPolicy)
    (h : ∀ p ∈ l, p.typ = PolicyKind.L4WFPPROXY) :
    l.mapM hcnPolicyToAPIPolicy = some (l.map convertedPolicy) := by
  induction l with
  | nil => rfl
  | cons p rest ih =>
    have hp := hcnPolicyToAPIPolicy_l4 p (h p (by simp))
    have hr := ih (fun q hq => h q (by simp [hq]))
    rw [List.mapM_cons, hp, hr]
    rfl

/-- If every container matching the id has an empty namespace id, the
namespace scan comes back empty (starting from any empty accumulator). -/
theorem scanNamespace_foldl_empty (cid : String) :
    ∀ (cs : List ContainerInfo),
      (∀ c ∈ cs, c.ContainerId = cid → c.NamespaceId = "") →
      cs.foldl
        (fun acc container =>
          if container.ContainerId = cid then container.NamespaceId else acc)
        "" = "" := by
  intro cs
  induction cs with
  | nil => intro _; rfl
  | cons c rest ih =>
    intro h
    by_cases hc : c.ContainerId = cid
    · have hns := h c (by simp) hc
      simp only [List.foldl_cons, hc, if_pos rfl, hns]
      exact ih (fun q hq hqc => h q (by simp [hq]) hqc)
    · simp only [List.foldl_cons, if_neg hc]
      exact ih (fun q hq hqc => h q (by simp [hq]) hqc)

/-- scanNamespace under the same hypothesis. -/
theorem scanNamespace_eq_empty (cs : List ContainerInfo) (cid : String)
    (h : ∀ c ∈ cs, c.ContainerId = cid → c.NamespaceId = "") :
    scanNamespace cs cid = "" :=
  scanNamespace_foldl_empty cid cs h

/-- The last container whose id matches decides the scanned namespace. -/
theorem scanNamespace_append_match (cs : List ContainerInfo)
    (c : ContainerInfo) (cid : String) (h : c.ContainerId = cid) :
    scanNamespace (cs ++ [c]) cid = c.NamespaceId := by
  unfold scanNamespace
  rw [List.foldl_append]
  simp [h]

/-- A string has length zero exactly when it is empty. -/
theorem string_length_zero_iff (s : String) : s.length = 0 ↔ s = "" := by
  cases s with
  | mk data => simp [String.length, List.length_eq_zero, String.ext_iff]

/-- parseDigits succeeds exactly on nonempty all-digit strings. -/
theorem parseDigits_isSome_iff (cs : List Char) :
    (parseDigits cs).isSome = true ↔ (!cs.isEmpty && cs.all Char.isDigit) = true := by
  unfold parseDigits
  by_cases h1 : cs.isEmpty <;> by_cases h2 : cs.all Char.isDigit <;> simp [h1, h2]

/-- isNumericString agrees with parseDigits succeeding on the unsigned
body. -/
theorem isNumericString_iff (s : String) :
    isNumericString s = true ↔ (parseDigits (stripSign s.data).2).isSome = true := by
  unfold isNumericString
  rw [parseDigits_isSome_iff]

/-- Clamping to the 64-bit int range preserves being nonzero. -/
theorem clamp_eq_zero_iff (v : Int) :
    (if v > int64Max then int64Max else if v < int64Min then int64Min else v) = 0 ↔
      v = 0 := by
  by_cases h1 : v > int64Max
  · rw [if_pos h1]
    unfold int64Max at h1 ⊢
    constructor <;> intro h <;> omega
  · rw [if_neg h1]
    by_cases h2 : v < int64Min
    · rw [if_pos h2]
      unfold int64Min at h2 ⊢
      constructor <;> intro h <;> omega
    · rw [if_neg h2]

/-- goAtoi is nonzero exactly on numeric strings of nonzero value. -/
theorem goAtoi_ne_zero_iff (s : String) :
    goAtoi s ≠ 0 ↔ (isNumericString s = true ∧ numericValue s ≠ 0) := by
  have hnum := isNumericString_iff s
  cases hd : parseDigits (stripSign s.data).2 with
  | none =>
    rw [hd] at hnum
    simp only [Option.isSome_none, Bool.false_eq_true, iff_false] at hnum
    simp [goAtoi, numericValue, hd, hnum]
  | some n =>
    rw [hd] at hnum
    have hn : isNumericString s = true := hnum.mpr (by simp)
    have hclamp := clamp_eq_zero_iff ((stripSign s.data).1 * n)
    simp only [goAtoi, numericValue, hd, hn, true_and]
    exact not_congr hclamp

/-- validatePolicy accepts exactly the policies whose proxy port is a
nonempty numeric string of nonzero value. -/
theorem validatePolicy_none_iff (p : Policy) :
    validatePolicy p = none ↔
      (p.ProxyPort ≠ "" ∧ isNumericString p.ProxyPort = true ∧
        numericValue p.ProxyPort ≠ 0) := by
  constructor
  · intro h
    unfold validatePolicy at h
    split_ifs at h with h1 h2
    exact ⟨fun he => h1 (by rw [he]; rfl), (goAtoi_ne_zero_iff _).mp h2⟩
  · rintro ⟨hne, hnum, hval⟩
    have h2 : goAtoi p.ProxyPort ≠ 0 := (goAtoi_ne_zero_iff _).mpr ⟨hnum, hval⟩
    have h1 : p.ProxyPort.length ≠ 0 :=
      fun h => hne ((string_length_zero_iff _).mp h)
    simp [validatePolicy, h1, h2]

/-! ## Claim theorems -/

/-- Claim C1: ClearPolicies reports the pre-removal count of the
endpoint's interception policies (its policies filtered to the L4 proxy
type), whatever the outcome of the subsequent remove mutation: the World
is universally quantified, so the modify call may succeed or fail. -/
theorem clearPolicies_reports_preremoval_count (w : World)
    (hnsEndpointID : String) (ep : HostComputeEndpoint)
    (h : w.getEndpointByID hnsEndpointID = .ok ep) :
    ((ClearPolicies w hnsEndpointID).1).1 =
      (ep.Policies.filter (fun p => decide (p.typ = PolicyKind.L4WFPPROXY))).length := by
  simp [ClearPolicies, listPolicies, h]

/-- Claim C1 witness: on the demo endpoint ep-a (two interception
policies among three stored policies) the count 2 is reported even though
wDemo's remove mutation fails. -/
theorem clearPolicies_reports_preremoval_count_witness :
    ((ClearPolicies wDemo "ep-a").1).1 = 2 ∧
      ((ClearPolicies wDemo "ep-a").1).2 = some "hns: remove failed" := by
  constructor
  · rw [clearPolicies_reports_preremoval_count wDemo "ep-a" epA rfl]
    rfl
  · rfl

/-- Claim C7: on an existing endpoint with no interception-type policies
(policies of other types allowed), ListPolicies returns an empty list and
no error. -/
theorem listPolicies_empty_when_no_proxy_policies (w : World)
    (hnsEndpointID : String) (ep : HostComputeEndpoint)
    (h : w.getEndpointByID hnsEndpointID = .ok ep)
    (hnone : ∀ p ∈ ep.Policies, p.typ ≠ PolicyKind.L4WFPPROXY) :
    (ListPolicies w hnsEndpointID).1 = .ok [] := by
  have hfilter :
      ep.Policies.filter (fun p => decide (p.typ = PolicyKind.L4WFPPROXY)) = [] := by
    rw [List.filter_eq_nil_iff]
    intro p hp
    simpa using hnone p hp
  simp [ListPolicies, listPolicies, h, hfilter]
  rfl

/-- Claim C7 witness: endpoint ep-b carries only an ACL-type policy, and
listing it yields ok with the empty list. -/
theorem listPolicies_empty_when_no_proxy_policies_witness :
    (ListPolicies wDemo "ep-b").1 = .ok [] :=
  listPolicies_empty_when_no_proxy_policies wDemo "ep-b" epB rfl (by decide)

/-- Claim C9: when the initial policy listing fails, ClearPolicies
returns count 0 with that error and issues no mutation at all: the trace
holds only the failed endpoint lookup. -/
theorem clearPolicies_error_path (w : World) (hnsEndpointID : String)
    (e : String) (h : w.getEndpointByID hnsEndpointID = .error e) :
    ClearPolicies w hnsEndpointID = ((0, some e), [RemoteCall.getEndpointByID hnsEndpointID]) ∧
      ∀ c ∈ (ClearPolicies w hnsEndpointID).2, c.isRemoveMutation = false := by
  have hres : ClearPolicies w hnsEndpointID =
      ((0, some e), [RemoteCall.getEndpointByID hnsEndpointID]) := by
    simp [ClearPolicies, listPolicies, h]
  refine ⟨hres, ?_⟩
  rw [hres]
  intro c hc
  simp only [List.mem_singleton] at hc
  rw [hc]
  rfl

/-- Claim C9 witness: looking up the absent endpoint ep-missing fails and
ClearPolicies reports (0, that error) having issued no mutation. -/
theorem clearPolicies_error_path_witness :
    ClearPolicies wDemo "ep-missing" =
      ((0, some "endpoint not found"), [RemoteCall.getEndpointByID "ep-missing"]) ∧
      ∀ c ∈ (ClearPolicies wDemo "ep-missing").2, c.isRemoveMutation = false :=
  clearPolicies_error_path wDemo "ep-missing" "endpoint not found" rfl

/-- Claim C6: looking up a container id absent from the runtime's list
returns the could-not-find-the-container error, and the trace holds no
call to the HNS control plane, in particular no namespace-to-endpoint
query. -/
theorem getEndpointFromContainer_not_found (w : World)
    (containerID runtimeEndpoint : String) (cs : List ContainerInfo)
    (hlist : ListContainers w = .ok cs)
    (habsent : ∀ c ∈ cs, c.ContainerId ≠ containerID) :
    GetEndpointFromContainer w containerID runtimeEndpoint =
        (.err "could not find the container", [RemoteCall.criListContainers]) ∧
      ∀ c ∈ (GetEndpointFromContainer w containerID runtimeEndpoint).2,
        c.isHcnCall = false := by
  have hscan : scanNamespace cs containerID = "" :=
    scanNamespace_eq_empty cs containerID
      (fun c hc hceq => absurd hceq (habsent c hc))
  have hres : GetEndpointFromContainer w containerID runtimeEndpoint =
      (.err "could not find the container", [RemoteCall.criListContainers]) := by
    simp [GetEndpointFromContainer, hlist, hscan]
  refine ⟨hres, ?_⟩
  rw [hres]
  intro c hc
  simp only [List.mem_singleton] at hc
  rw [hc]
  rfl

/-- Claim C6 witness: cont-absent matches none of the three demo
containers; the lookup fails with the container-not-found error and the
only remote call is the CRI listing. -/
theorem getEndpointFromContainer_not_found_witness :
    GetEndpointFromContainer wDemo "cont-absent" "" =
        (.err "could not find the container", [RemoteCall.criListContainers]) ∧
      ∀ c ∈ (GetEndpointFromContainer wDemo "cont-absent" "").2,
        c.isHcnCall = false :=
  getEndpointFromContainer_not_found wDemo "cont-absent" ""
    [ { ContainerId := "cont-1", NamespaceId := "ns-0" },
      { ContainerId := "cont-2", NamespaceId := "" },
      { ContainerId := "cont-1", NamespaceId := "ns-1" } ]
    rfl (by decide)

/-- Claim C2 counterexample: container cont-2 is present in wDemo's
runtime list and its status carries no namespace identifier (the
networkNamespace field is empty), yet GetEndpointFromContainer returns
exactly the same "could not find the container" error it returns for the
absent id cont-absent: the two errors are not distinct. -/
theorem getEndpointFromContainer_no_ns_same_error_cex :
    (GetEndpointFromContainer wDemo "cont-2" "").1 =
        .err "could not find the container" ∧
      (GetEndpointFromContainer wDemo "cont-absent" "").1 =
        .err "could not find the container" :=
  ⟨rfl, rfl⟩

/-- Claim C2 (amended): when every runtime entry matching the container
id carries an empty namespace identifier, GetEndpointFromContainer fails
with the same "could not find the container" error used for an absent id
(and when the identifier is missing from the status's nested shape
altogether, cri.ListContainers aborts on a failed type assertion rather
than returning an error at all). -/
theorem getEndpointFromContainer_empty_ns_error (w : World)
    (containerID runtimeEndpoint : String) (cs : List ContainerInfo)
    (hlist : ListContainers w = .ok cs)
    (hempty : ∀ c ∈ cs, c.ContainerId = containerID → c.NamespaceId = "") :
    GetEndpointFromContainer w containerID runtimeEndpoint =
      (.err "could not find the container", [RemoteCall.criListContainers]) := by
  have hscan : scanNamespace cs containerID = "" :=
    scanNamespace_eq_empty cs containerID hempty
  simp [GetEndpointFromContainer, hlist, hscan]

/-- Claim C2 amended-claim witness: cont-2 is present with an empty
namespace identifier and the lookup fails with the container-not-found
error. -/
theorem getEndpointFromContainer_empty_ns_error_witness :
    GetEndpointFromContainer wDemo "cont-2" "" =
      (.err "could not find the container", [RemoteCall.criListContainers]) :=
  getEndpointFromContainer_empty_ns_error wDemo "cont-2" ""
    [ { ContainerId := "cont-1", NamespaceId := "ns-0" },
      { ContainerId := "cont-2", NamespaceId := "" },
      { ContainerId := "cont-1", NamespaceId := "ns-1" } ]
    rfl (by decide)

/-- Claim C10: on a successful lookup the result joins all k endpoint ids
of the resolved namespace with commas (not only the first), and the
namespace used is the one scanned off the container list, where the last
entry matching the container id wins. -/
theorem getEndpointFromContainer_joins_all_endpoints :
    (∀ (w : World) (containerID runtimeEndpoint : String)
        (cs : List ContainerInfo) (endpointIDs : List String),
      ListContainers w = .ok cs →
      (scanNamespace cs containerID).length ≠ 0 →
      w.getNamespaceEndpointIds (scanNamespace cs containerID) = .ok endpointIDs →
      endpointIDs.length ≠ 0 →
      (GetEndpointFromContainer w containerID runtimeEndpoint).1 =
        .ok (String.intercalate "," endpointIDs)) ∧
    (∀ (cs : List ContainerInfo) (c : ContainerInfo) (containerID : String),
      c.ContainerId = containerID →
      scanNamespace (cs ++ [c]) containerID = c.NamespaceId) := by
  constructor
  · intro w containerID runtimeEndpoint cs endpointIDs hlist hns hids hlen
    simp [GetEndpointFromContainer, hlist, hns, hids, hlen]
  · intro cs c containerID h
    exact scanNamespace_append_match cs c containerID h

/-- Claim C10 witness: cont-1 appears twice in wDemo's list; the last
entry's namespace ns-1 is used and both of its endpoint ids come back
comma-joined. -/
theorem getEndpointFromContainer_joins_all_endpoints_witness :
    (GetEndpointFromContainer wDemo "cont-1" "").1 = .ok "eid-1,eid-2" ∧
      scanNamespace
        ([ { ContainerId := "cont-1", NamespaceId := "ns-0" },
           { ContainerId := "cont-2", NamespaceId := "" } ] ++
         [ { ContainerId := "cont-1", NamespaceId := "ns-1" } ]) "cont-1" = "ns-1" :=
  ⟨getEndpointFromContainer_joins_all_endpoints.1 wDemo "cont-1" ""
      [ { ContainerId := "cont-1", NamespaceId := "ns-0" },
        { ContainerId := "cont-2", NamespaceId := "" },
        { ContainerId := "cont-1", NamespaceId := "ns-1" } ]
      ["eid-1", "eid-2"] rfl (by decide) rfl (by decide),
    getEndpointFromContainer_joins_all_endpoints.2 _ _ _ rfl⟩

/-- Claim C8: the panic branch of hcnPolicyToAPIPolicy is unreachable
from ListPolicies: listPolicies filters to the L4WFPPROXY type before
converting, so no world and no endpoint make ListPolicies end in a
panic. -/
theorem listPolicies_panic_unreachable (w : World) (hnsEndpointID : String) :
    ((ListPolicies w hnsEndpointID).1).isPanicked = false := by
  cases hep : w.getEndpointByID hnsEndpointID with
  | error e => simp [ListPolicies, listPolicies, hep, GoResult.isPanicked]
  | ok ep =>
    have hall : ∀ p ∈ ep.Policies.filter
        (fun q => decide (q.typ = PolicyKind.L4WFPPROXY)),
        p.typ = PolicyKind.L4WFPPROXY :=
      fun p hp => typ_of_mem_filterProxy ep.Policies p hp
    have hm : List.mapM.loop hcnPolicyToAPIPolicy
        (ep.Policies.filter (fun q => decide (q.typ = PolicyKind.L4WFPPROXY))) [] =
        some ((ep.Policies.filter
                (fun q => decide (q.typ = PolicyKind.L4WFPPROXY))).map
              convertedPolicy) :=
      mapM_hcnPolicyToAPIPolicy _ hall
    simp [ListPolicies, listPolicies, hep, hm, GoResult.isPanicked]

/-- Claim C4 counterexample: endpoint ep-a stores an interception policy
whose settings blob does not match the schema; its unmarshal records an
error which ListPolicies discards, yet the entry is NOT dropped: the
returned list still contains it, as a zero-valued record, so the claim's
"malformed entry is dropped from the returned list" is false. -/
theorem listPolicies_keeps_malformed_cex :
    (ListPolicies wDemo "ep-a").1 = .ok [demoPolicy, zeroPolicy] ∧
      (unmarshalL4Setting malformedProxyPolicy.Settings).2 = true ∧
      (ListPolicies wDemo "ep-a").1 ≠ .ok [demoPolicy] := by
  refine ⟨rfl, rfl, ?_⟩
  decide

/-- Claim C4 (amended): ListPolicies surfaces no error for entries with
an unparseable settings blob: the unmarshal error is silently discarded
and the malformed entry is kept in the returned list as a zero-valued
record (not dropped); the whole filtered list comes back converted. -/
theorem listPolicies_keeps_malformed_entries (w : World)
    (hnsEndpointID : String) (ep : HostComputeEndpoint)
    (h : w.getEndpointByID hnsEndpointID = .ok ep) :
    (ListPolicies w hnsEndpointID).1 =
      .ok ((ep.Policies.filter
              (fun q => decide (q.typ = PolicyKind.L4WFPPROXY))).map
            convertedPolicy) := by
  have hall : ∀ p ∈ ep.Policies.filter
      (fun q => decide (q.typ = PolicyKind.L4WFPPROXY)),
      p.typ = PolicyKind.L4WFPPROXY :=
    fun p hp => typ_of_mem_filterProxy ep.Policies p hp
  have hm : List.mapM.loop hcnPolicyToAPIPolicy
      (ep.Policies.filter (fun q => decide (q.typ = PolicyKind.L4WFPPROXY))) [] =
      some ((ep.Policies.filter
              (fun q => decide (q.typ = PolicyKind.L4WFPPROXY))).map
            convertedPolicy) :=
    mapM_hcnPolicyToAPIPolicy _ hall
  simp [ListPolicies, listPolicies, h, hm]

/-- Claim C4 amended-claim witness: on ep-a the converted list keeps both
the well-formed and the malformed interception policy. -/
theorem listPolicies_keeps_malformed_entries_witness :
    (ListPolicies wDemo "ep-a").1 =
      .ok ((epA.Policies.filter
              (fun q => decide (q.typ = PolicyKind.L4WFPPROXY))).map
            convertedPolicy) :=
  listPolicies_keeps_malformed_entries wDemo "ep-a" epA rfl

/-- Claim C3: a Policy with Protocol "6" serialized into the settings
schema as AddPolicy does (protocol forced to "6", then marshalled) and
deserialized back as ListPolicies does yields the original record
field for field. -/
theorem addPolicy_roundtrip (p : Policy) (h : p.Protocol = "6") :
    hcnPolicyToAPIPolicy
        { typ := PolicyKind.L4WFPPROXY,
          Settings := encodeL4Setting (addPolicySetting { p with Protocol := "6" }) } =
      some p := by
  have hp : ({ p with Protocol := "6" } : Policy) = p := by
    cases p
    simp_all
  rw [hp]
  rfl

/-- Claim C3 witness: the round trip at the fully populated demoPolicy
record. -/
theorem addPolicy_roundtrip_witness :
    hcnPolicyToAPIPolicy
        { typ := PolicyKind.L4WFPPROXY,
          Settings :=
            encodeL4Setting (addPolicySetting { demoPolicy with Protocol := "6" }) } =
      some demoPolicy :=
  addPolicy_roundtrip demoPolicy rfl

/-- Claim C5: validatePolicy accepts exactly the policies whose proxy
port is a nonempty, nonzero numeric string, and on any rejected policy
AddPolicy returns the validation error having issued no remote call at
all (no endpoint lookup, no mutation). -/
theorem addPolicy_validates_proxy_port (p : Policy) :
    (validatePolicy p = none ↔
        (p.ProxyPort ≠ "" ∧ isNumericString p.ProxyPort = true ∧
          numericValue p.ProxyPort ≠ 0)) ∧
      ∀ (w : World) (hnsEndpointID e : String),
        validatePolicy p = some e →
        AddPolicy w hnsEndpointID p = (some e, []) := by
  refine ⟨validatePolicy_none_iff p, ?_⟩
  intro w hnsEndpointID e h
  simp [AddPolicy, h]

/-- Claim C5 witness: the empty port and port "0" are rejected with no
remote call, and the numeric port "8080" passes validation. -/
theorem addPolicy_validates_proxy_port_witness :
    AddPolicy wDemo "ep-a" { zeroPolicy with ProxyPort := "" } =
        (some "policy missing proxy port", []) ∧
      AddPolicy wDemo "ep-a" { zeroPolicy with ProxyPort := "0" } =
        (some "policy has invalid proxy port value: 0", []) ∧
      validatePolicy { zeroPolicy with ProxyPort := "8080" } = none :=
  ⟨(addPolicy_validates_proxy_port _).2 wDemo "ep-a" _ (by decide),
    (addPolicy_validates_proxy_port _).2 wDemo "ep-a" _ (by decide),
    (addPolicy_validates_proxy_port _).1.mpr
      ⟨by decide, by decide, by decide⟩⟩

end HcnProxyCtrl
